import Mathlib

/-!
Shallow embedding of the Sphinx documentation extension
`devel-common/src/sphinx_exts/docroles.py` (the `:template-fields:` role).

The extension consists of three functions:

* `get_template_field(env, fullname)` — splits the fully-qualified class name
  on its last dot, imports the module (inside sphinx's autodoc `mock` context
  configured with `env.config.autodoc_mock_imports`), looks up the class on
  the module, reads its `template_fields` attribute, and returns
  `list(template_fields)`; raising `RoleException` when the looked-up class
  value is falsy or the attribute value is empty.
* `template_field_role(app, typ, rawtext, text, lineno, inliner, ...)` —
  unescapes the argument text, calls `get_template_field`, and on
  `RoleException` reports one line-tagged error message and one problematic
  node; on success builds one inline node holding the rendered field spans.
* `setup(app)` — registers the role (partially applied to `app`) under the
  name `template-fields` and returns the extension metadata mapping.

Python exceptions are modelled with `Except PyError`; the interpreter's
mutable module state (`sys.modules` caching done by `importlib`, which
`sphinx.ext.autodoc.importer.import_module` wraps, and the scoped mock
finder installed by `sphinx.ext.autodoc.mock.mock`) is modelled by an
explicit `ImportState` threaded through the functions.  Python values that
the code inspects only for truthiness, attribute presence and iteration are
modelled by dedicated structures recording exactly those observations.
-/

set_option autoImplicit false

namespace Docroles

/-- Runtime kind of a Python sequence value: the source reads arbitrary
sequences (commonly tuples) from `template_fields` and converts them with
`list(...)`. -/
inductive SeqKind where
  | list
  | tuple
  | other
deriving DecidableEq

/-- A Python sequence value as observed by the source: its runtime kind and
its elements in order.  Its truthiness (`not template_fields`) is emptiness
of `elems`; sphinx mock objects also report length 0. -/
structure PySeq where
  kind : SeqKind
  elems : List String
deriving DecidableEq

/-- The Python builtin `list(...)` applied to a sequence: a fresh list value
holding the same elements in the same order. -/
def pyList (s : PySeq) : PySeq :=
  { kind := SeqKind.list, elems := s.elems }

/-- The value found on the module under the class name, as observed by the
source: its truthiness (`if not clazz`) and its `template_fields` attribute
(`none` models an absent attribute, for which `getattr` with no default
raises `AttributeError`). -/
structure PyClass where
  truthy : Bool
  templateFields : Option PySeq
deriving DecidableEq

/-- A Python module object: a mapping from attribute names to values. -/
structure PyModule where
  attrs : List (String × PyClass)
deriving DecidableEq

/-- Result of a successful module load: either a real module, or the stub
produced by sphinx's autodoc mock finder for mocked module names. -/
inductive ImportedModule where
  | real (m : PyModule)
  | mocked
deriving DecidableEq

/-- Python exceptions the source can raise.  `roleException` is the
extension's own `RoleException`; the others are the builtin exceptions
raised by tuple unpacking, `sphinx.ext.autodoc.importer.import_module`
(which wraps any failure in `ImportError`) and `getattr` without a
default. -/
inductive PyError where
  | valueError (msg : String)
  | importError (modname : String)
  | attributeError (obj attr : String)
  | roleException (msg : String)
deriving DecidableEq

/-- True exactly when a resolver outcome is a raised `RoleException` — the
only exception class `template_field_role` catches. -/
def failsWithRoleException (res : Except PyError PySeq) : Bool :=
  match res with
  | .error (.roleException _) => true
  | _ => false

/-- Attribute access on a sphinx mock module: `_MockObject.__getattr__`
always succeeds and returns a fresh mock instance, whose `__len__` is 0, so
the instance is falsy and its `template_fields` attribute is again a falsy
mock. -/
def mockClass : PyClass :=
  { truthy := false, templateFields := some { kind := SeqKind.other, elems := [] } }

/-- `getattr(mod, name)` without a default: `none` models the raised
`AttributeError`. -/
def getattrMod : ImportedModule → String → Option PyClass
  | ImportedModule.real m, name => m.attrs.lookup name
  | ImportedModule.mocked, _ => some mockClass

/-- The slice of the sphinx build configuration the source reads. -/
structure Config where
  autodoc_mock_imports : List String
deriving DecidableEq

/-- The sphinx build environment: the source only reads `env.config`. -/
structure BuildEnv where
  config : Config
deriving DecidableEq

/-- The sphinx application object: the source only reads `app.env`. -/
structure App where
  env : BuildEnv
deriving DecidableEq

/-- The interpreter's module state: `defs` is the fixed universe of modules
that can be really imported (the "module state" of the spec), `cache` is
`sys.modules`, the table of modules already imported and executed. -/
structure ImportState where
  defs : List (String × PyModule)
  cache : List (String × PyModule)
deriving DecidableEq

/-- Python's `s.startswith(pre)`, computed on the character lists. -/
def startswith (s pre : String) : Bool :=
  List.isPrefixOf pre.toList s.toList

/-- Sphinx's `MockFinder` mocks a module name when it equals a configured
name or is a submodule of one (`fullname == modname or
fullname.startswith(modname + ".")`). -/
def isMocked (modnames : List String) (modname : String) : Bool :=
  modnames.any (fun p => modname = p || startswith modname (p ++ "."))

/-- The behaviour of `import_module(modname)` executed inside
`with mock(env.config.autodoc_mock_imports)`: `sys.modules` is consulted
first (a cache hit returns the cached module unchanged); otherwise the mock
finder intercepts mocked names (the stub it registers is removed again when
the `with` block exits, so the state is unchanged); otherwise a real import
executes the module definition and caches it, or fails with `ImportError`
(sphinx's `import_module` wraps every failure in `ImportError`). -/
def importModule (modnames : List String) (s : ImportState) (modname : String) :
    Except PyError ImportedModule × ImportState :=
  match s.cache.lookup modname with
  | some m => (.ok (ImportedModule.real m), s)
  | none =>
    if isMocked modnames modname then
      (.ok ImportedModule.mocked, s)
    else
      match s.defs.lookup modname with
      | some m => (.ok (ImportedModule.real m), { s with cache := (modname, m) :: s.cache })
      | none => (.error (.importError modname), s)

/-- Split a character list at the LAST occurrence of `sep`: `some (l, r)`
with the list equal to `l ++ sep :: r` and no `sep` in `r`; `none` when
`sep` does not occur. -/
def splitLast (sep : Char) : List Char → Option (List Char × List Char)
  | [] => none
  | c :: cs =>
    match splitLast sep cs with
    | some (l, r) => some (c :: l, r)
    | none => if c = sep then some ([], cs) else none

/-- Python's `s.rsplit(sep, 1)` for a one-character separator: the segments
before and after the last separator, or the whole string when the separator
does not occur. -/
def rsplit1 (s : String) (sep : Char) : List String :=
  match splitLast sep s.toList with
  | some (l, r) => [String.mk l, String.mk r]
  | none => [s]

/-- Python tuple unpacking `modname, classname = parts`: raises `ValueError`
unless the list has exactly two elements. -/
def unpack2 (parts : List String) : Except PyError (String × String) :=
  match parts with
  | [a, b] => .ok (a, b)
  | [_] => .error (.valueError "not enough values to unpack (expected 2, got 1)")
  | _ => .error (.valueError "values to unpack")

/-- The pure tail of `get_template_field` after the module import: look the
class up on the module (`AttributeError` when absent), raise `RoleException`
when the value is falsy, read `template_fields` (`AttributeError` when
absent), raise `RoleException` when it is empty, else return
`list(template_fields)`. -/
def resolveFromModule (modname classname : String) (mod : ImportedModule) :
    Except PyError PySeq :=
  match getattrMod mod classname with
  | none => .error (.attributeError modname classname)
  | some clazz =>
    if !clazz.truthy then
      .error (.roleException ("Error finding " ++ classname ++ " class in " ++ modname ++ " module."))
    else
      match clazz.templateFields with
      | none => .error (.attributeError classname "template_fields")
      | some tf =>
        if tf.elems.isEmpty then
          .error (.roleException ("Could not find the template fields for " ++ classname ++ " class in " ++ modname ++ " module."))
        else
          .ok (pyList tf)

/-- `get_template_field(env, fullname)` from the source:
`modname, classname = fullname.rsplit(".", 1)`, then the module import
inside the mock context, then `resolveFromModule`. -/
def get_template_field (env : BuildEnv) (s : ImportState) (fullname : String) :
    Except PyError PySeq × ImportState :=
  match unpack2 (rsplit1 fullname '.') with
  | .error e => (.error e, s)
  | .ok (modname, classname) =>
    match importModule env.config.autodoc_mock_imports s modname with
    | (.error e, s₁) => (.error e, s₁)
    | (.ok mod, s₁) => (resolveFromModule modname classname mod, s₁)

/-- One pass of Python's `str.replace` over character lists, fuelled by the
length of the scanned list so the recursion is structural (each step
consumes at least one character whenever the pattern is non-empty, which it
always is below). -/
def replaceChars (pat rep : List Char) : Nat → List Char → List Char
  | 0, cs => cs
  | fuel + 1, cs =>
    match cs with
    | [] => []
    | c :: rest =>
      if pat ≠ [] ∧ List.isPrefixOf pat cs then
        rep ++ replaceChars pat rep fuel (cs.drop pat.length)
      else
        c :: replaceChars pat rep fuel rest

/-- Python's `s.replace(pat, rep)`: replace every non-overlapping
occurrence, scanning left to right. -/
def pyReplace (s pat rep : String) : String :=
  String.mk (replaceChars pat.toList rep.toList s.toList.length s.toList)

/-- `docutils.utils.unescape(text)` with default arguments: drop the
null-escape sequences, in this order. -/
def unescape (text : String) : String :=
  pyReplace (pyReplace (pyReplace text "\x00 " "") "\x00\n" "") "\x00" ""

/-- A docutils `system_message` node, as produced by
`inliner.reporter.error(message, line=lineno)` (severity level 3). -/
structure SystemMessage where
  message : String
  line : Nat
  level : Nat
deriving DecidableEq

/-- `inliner.reporter.error(message, line=lineno)`. -/
def reporterError (message : String) (line : Nat) : SystemMessage :=
  { message := message, line := line, level := 3 }

/-- The docutils nodes the source builds.  `nodes.inline(rawtext=rawtext)`
passes `rawtext` as an element attribute (the constructor's positional
parameter is `rawsource`), so the inline node carries an attribute map. -/
inductive Node where
  | text (s : String)
  | literal (rawsource : String) (children : List Node)
  | inline (rawsource : String) (attributes : List (String × String)) (children : List Node)
  | problematic (rawsource text : String) (msg : SystemMessage)

/-- `nodes.literal(rawsource, text, *children)`: a docutils `TextElement`
prepends `Text(text)` to the children unless `text` is empty. -/
def literalNode (rawsource text : String) (children : List Node) : Node :=
  if text = "" then Node.literal rawsource children
  else Node.literal rawsource (Node.text text :: children)

/-- The render loop of `template_field_role` from its second field onward:
each further field contributes a `", "` text node then a literal span. -/
def renderFrom : List String → List Node
  | [] => []
  | g :: gs => Node.text ", " :: literalNode g "" [Node.text g] :: renderFrom gs

/-- The render loop of `template_field_role`: for each field in order a
literal span `nodes.literal(field, "", nodes.Text(field))`, with a `", "`
text node before every span except the first. -/
def renderFields : List String → List Node
  | [] => []
  | f :: fs => literalNode f "" [Node.text f] :: renderFrom fs

/-- The body of `template_field_role` after `get_template_field` returns or
raises: `RoleException` is caught and turned into one error message and one
problematic node; any other exception propagates; on success the fields are
rendered into one inline node carrying the `rawtext` attribute. -/
def roleOutcome (rawtext text : String) (lineno : Nat)
    (res : Except PyError PySeq) : Except PyError (List Node × List SystemMessage) :=
  match res with
  | .ok tf =>
    .ok ([Node.inline "" [("rawtext", rawtext)] (renderFields tf.elems)], [])
  | .error (.roleException emsg) =>
    let msg := reporterError ("invalid class name " ++ text ++ " \n" ++ emsg) lineno
    .ok ([Node.problematic rawtext rawtext msg], [msg])
  | .error e => .error e

/-- `template_field_role(app, typ, rawtext, text, lineno, inliner, options,
content)` from the source (`typ` is unused; `options` and `content` are
normalised to empty and never used; `inliner` is modelled by
`reporterError` and the problematic-node construction): unescape the text,
resolve it against `app.env`, and post-process with `roleOutcome`.  The
resulting interpreter state is returned alongside, also when an uncaught
exception propagates. -/
def template_field_role (app : App) (s : ImportState)
    (_typ rawtext text : String) (lineno : Nat) :
    Except PyError (List Node × List SystemMessage) × ImportState :=
  (roleOutcome rawtext (unescape text) lineno
      (get_template_field app.env s (unescape text)).fst,
   (get_template_field app.env s (unescape text)).snd)

/-- A value of the metadata mapping returned by `setup`. -/
inductive MetaVal where
  | str (s : String)
  | bool (b : Bool)
deriving DecidableEq

/-- A role function held by the docutils role registry.  The source
registers exactly one: `partial(template_field_role, app)`. -/
inductive RegisteredRole where
  | templateFieldRoleBoundTo (app : App)

/-- The function a registry entry stands for. -/
def RegisteredRole.run : RegisteredRole →
    ImportState → String → String → String → Nat →
    Except PyError (List Node × List SystemMessage) × ImportState
  | RegisteredRole.templateFieldRoleBoundTo app => template_field_role app

/-- `docutils.parsers.rst.roles.register_local_role(name, role_fn)`:
`_roles[name] = role_fn`, an association update. -/
def register_local_role (name : String) (role : RegisteredRole)
    (registry : List (String × RegisteredRole)) : List (String × RegisteredRole) :=
  (name, role) :: registry

/-- `setup(app)` from the source: register the partially applied role under
`template-fields` and return the metadata mapping. -/
def setup (app : App) (registry : List (String × RegisteredRole)) :
    List (String × RegisteredRole) × List (String × MetaVal) :=
  (register_local_role "template-fields" (RegisteredRole.templateFieldRoleBoundTo app) registry,
   [("version", MetaVal.str "builtin"),
    ("parallel_read_safe", MetaVal.bool true),
    ("parallel_write_safe", MetaVal.bool true)])

/-- Number of literal spans at the top level of a node list. -/
def literalCount : List Node → Nat
  | [] => 0
  | Node.literal _ _ :: rest => literalCount rest + 1
  | _ :: rest => literalCount rest

/-- Number of plain `", "` text nodes at the top level of a node list. -/
def sepCount : List Node → Nat
  | [] => 0
  | Node.text s :: rest => (if s = ", " then 1 else 0) + sepCount rest
  | _ :: rest => sepCount rest

/-- The raw sources of the literal spans of a node list, in order. -/
def spanSources : List Node → List String
  | [] => []
  | Node.literal r _ :: rest => r :: spanSources rest
  | _ :: rest => spanSources rest

/-- The shape the spec prescribes for the rendered children: the literal
spans in field order, with one `", "` text node between consecutive spans,
none before the first and none after the last. -/
def sepInterleaved (fields : List String) : List Node :=
  List.intersperse (Node.text ", ") (fields.map (fun f => literalNode f "" [Node.text f]))

/-! Concrete fixtures used by witnesses and counterexamples. -/

/-- A class declaring `template_fields = ("a", "b", "c")` (a tuple, as
operator classes in this repository do). -/
def fooClassABC : PyClass :=
  { truthy := true, templateFields := some { kind := SeqKind.tuple, elems := ["a", "b", "c"] } }

/-- A truthy class with no `template_fields` attribute at all. -/
def fooClassNoTF : PyClass :=
  { truthy := true, templateFields := none }

/-- A module `pkg.mod` whose only attribute is the class `Foo` above. -/
def pkgModModule : PyModule :=
  { attrs := [("Foo", fooClassABC)] }

/-- A module `pkg.mod` whose class `Foo` lacks `template_fields`. -/
def pkgModModuleNoTF : PyModule :=
  { attrs := [("Foo", fooClassNoTF)] }

/-- A module whose name `Bar` is bound to a falsy value (the only way the
`Error finding ... class` branch of the source can fire). -/
def pkgModModuleFalsy : PyModule :=
  { attrs := [("Bar", { truthy := false, templateFields := none })] }

/-- A module whose class `Empty` declares `template_fields = []`. -/
def pkgModModuleEmptyTF : PyModule :=
  { attrs := [("Empty", { truthy := true, templateFields := some { kind := SeqKind.list, elems := [] } })] }

/-- Build configuration with no mocked module names. -/
def envNoMock : BuildEnv := { config := { autodoc_mock_imports := [] } }

/-- Application object over `envNoMock`. -/
def appNoMock : App := { env := envNoMock }

/-- Build configuration mocking everything under `torch`. -/
def envMockTorch : BuildEnv := { config := { autodoc_mock_imports := ["torch"] } }

/-- Application object over `envMockTorch`. -/
def appMockTorch : App := { env := envMockTorch }

/-- Fresh interpreter state whose importable universe is `pkg.mod` with the
three-field class `Foo`. -/
def stateABC : ImportState := { defs := [("pkg.mod", pkgModModule)], cache := [] }

/-- `stateABC` after `pkg.mod` has been imported and cached. -/
def stateABCLoaded : ImportState :=
  { defs := [("pkg.mod", pkgModModule)], cache := [("pkg.mod", pkgModModule)] }

/-- Fresh interpreter state where `pkg.mod.Foo` lacks `template_fields`. -/
def stateNoTF : ImportState := { defs := [("pkg.mod", pkgModModuleNoTF)], cache := [] }

/-- `stateNoTF` after `pkg.mod` has been imported and cached. -/
def stateNoTFLoaded : ImportState :=
  { defs := [("pkg.mod", pkgModModuleNoTF)], cache := [("pkg.mod", pkgModModuleNoTF)] }

/-- Fresh interpreter state for the falsy-attribute module. -/
def stateFalsy : ImportState := { defs := [("pkg.mod", pkgModModuleFalsy)], cache := [] }

/-- Fresh interpreter state for the empty-`template_fields` module. -/
def stateEmptyTF : ImportState := { defs := [("pkg.mod", pkgModModuleEmptyTF)], cache := [] }

/-- `stateEmptyTF` after `pkg.mod` has been imported and cached. -/
def stateEmptyTFLoaded : ImportState :=
  { defs := [("pkg.mod", pkgModModuleEmptyTF)], cache := [("pkg.mod", pkgModModuleEmptyTF)] }

/-- The empty interpreter state: nothing importable, nothing cached. -/
def stateEmpty : ImportState := { defs := [], cache := [] }

example : get_template_field envNoMock stateABC "pkg.mod.Foo" =
    (.ok { kind := SeqKind.list, elems := ["a", "b", "c"] }, stateABCLoaded) := rfl

example : get_template_field envNoMock stateNoTF "pkg.mod.Foo" =
    (.error (.attributeError "Foo" "template_fields"), stateNoTFLoaded) := rfl

example : (get_template_field envMockTorch stateEmpty "ghostpkg.Mod").fst =
    .error (.importError "ghostpkg") := rfl

example : (get_template_field envMockTorch stateEmpty "torch.nn.Linear").fst =
    .error (.roleException "Error finding Linear class in torch.nn module.") := rfl

example : (get_template_field envNoMock stateEmpty "NoDotsHere").fst =
    .error (.valueError "not enough values to unpack (expected 2, got 1)") := rfl

example : (template_field_role appNoMock stateABC "t" "raw" "pkg.mod.Foo" 7).fst =
    .ok ([Node.inline "" [("rawtext", "raw")] (renderFields ["a", "b", "c"])], []) := rfl

/-! Helper lemmas about `splitLast`. -/

theorem splitLast_of_not_mem {sep : Char} {cs : List Char} (h : sep ∉ cs) :
    splitLast sep cs = none := by
  induction cs with
  | nil => rfl
  | cons c rest ih =>
    have h1 : sep ∉ rest := fun hm => h (List.mem_cons_of_mem _ hm)
    have h2 : c ≠ sep := fun he => h (he ▸ List.mem_cons_self _ _)
    simp [splitLast, ih h1, h2]

theorem splitLast_mem {sep : Char} {cs : List Char} (h : sep ∈ cs) :
    ∃ l r, splitLast sep cs = some (l, r) ∧ cs = l ++ sep :: r ∧ sep ∉ r := by
  induction cs with
  | nil => cases h
  | cons c rest ih =>
    by_cases hr : sep ∈ rest
    · obtain ⟨l, r, hs, he, hn⟩ := ih hr
      refine ⟨c :: l, r, ?_, by simp [he], hn⟩
      simp [splitLast, hs]
    · have hc : c = sep := by
        rcases List.mem_cons.mp h with h1 | h2
        · exact h1.symm
        · exact absurd h2 hr
      refine ⟨[], rest, ?_, by simp [hc], hr⟩
      simp [splitLast, splitLast_of_not_mem hr, hc]

/-! Helper lemmas about the render loop. -/

theorem literalCount_renderFrom (fs : List String) :
    literalCount (renderFrom fs) = fs.length := by
  induction fs with
  | nil => rfl
  | cons g gs ih => simp [renderFrom, literalNode, literalCount, ih]

theorem literalCount_renderFields (fs : List String) :
    literalCount (renderFields fs) = fs.length := by
  cases fs with
  | nil => rfl
  | cons f gs => simp [renderFields, literalNode, literalCount, literalCount_renderFrom]

theorem sepCount_renderFrom (fs : List String) :
    sepCount (renderFrom fs) = fs.length := by
  induction fs with
  | nil => rfl
  | cons g gs ih =>
    simp [renderFrom, literalNode, sepCount, ih]
    omega

theorem sepCount_renderFields (fs : List String) :
    sepCount (renderFields fs) = fs.length - 1 := by
  cases fs with
  | nil => rfl
  | cons f gs => simp [renderFields, literalNode, sepCount, sepCount_renderFrom]

theorem spanSources_renderFrom (fs : List String) :
    spanSources (renderFrom fs) = fs := by
  induction fs with
  | nil => rfl
  | cons g gs ih => simp [renderFrom, literalNode, spanSources, ih]

theorem spanSources_renderFields (fs : List String) :
    spanSources (renderFields fs) = fs := by
  cases fs with
  | nil => rfl
  | cons f gs => simp [renderFields, literalNode, spanSources, spanSources_renderFrom]

theorem intersperse_cons_renderFrom (x : Node) (fs : List String) :
    List.intersperse (Node.text ", ") (x :: fs.map (fun f => literalNode f "" [Node.text f])) =
      x :: renderFrom fs := by
  induction fs generalizing x with
  | nil => rfl
  | cons g gs ih =>
    rw [List.map_cons, List.intersperse_cons_cons, ih]
    rfl

theorem renderFields_eq_sepInterleaved (fields : List String) :
    renderFields fields = sepInterleaved fields := by
  cases fields with
  | nil => rfl
  | cons f fs =>
    show literalNode f "" [Node.text f] :: renderFrom fs = sepInterleaved (f :: fs)
    unfold sepInterleaved
    rw [List.map_cons, intersperse_cons_renderFrom]

/-! Helper lemmas about the import layer and the resolver. -/

theorem importModule_idem {mp : List String} {s s₁ : ImportState} {mn : String}
    {r : Except PyError ImportedModule} (h : importModule mp s mn = (r, s₁)) :
    importModule mp s₁ mn = (r, s₁) := by
  unfold importModule at h
  split at h
  next m hc =>
    cases h
    unfold importModule
    rw [hc]
  next hc =>
    split at h
    next hm =>
      cases h
      unfold importModule
      rw [hc]
      simp [hm]
    next hm =>
      split at h
      next m hd =>
        cases h
        unfold importModule
        simp [List.lookup]
      next hd =>
        cases h
        unfold importModule
        rw [hc]
        simp [hm, hd]

theorem importModule_defs (mp : List String) (s : ImportState) (mn : String) :
    (importModule mp s mn).snd.defs = s.defs := by
  unfold importModule
  split
  next => rfl
  next =>
    split
    next => rfl
    next =>
      split
      next => rfl
      next => rfl

theorem resolveFromModule_ok {modname classname : String} {mod : ImportedModule} {r : PySeq}
    (h : resolveFromModule modname classname mod = .ok r) :
    ∃ clazz tf, getattrMod mod classname = some clazz ∧ clazz.truthy = true ∧
      clazz.templateFields = some tf ∧ tf.elems ≠ [] ∧ r = pyList tf := by
  unfold resolveFromModule at h
  split at h
  next => cases h
  next clazz hg =>
    split at h
    next => cases h
    next htr =>
      split at h
      next => cases h
      next tf htf =>
        split at h
        next => cases h
        next hne =>
          refine ⟨clazz, tf, hg, ?_, htf, ?_, ?_⟩
          · cases hcl : clazz.truthy
            · exact absurd (by rw [hcl]; rfl) htr
            · rfl
          · simpa using hne
          · exact (Except.ok.injEq .. ▸ h).symm

theorem get_template_field_ok {env : BuildEnv} {s s₁ : ImportState} {fqn : String} {r : PySeq}
    (h : get_template_field env s fqn = (.ok r, s₁)) :
    ∃ modname classname mod,
      unpack2 (rsplit1 fqn '.') = .ok (modname, classname) ∧
      importModule env.config.autodoc_mock_imports s modname = (.ok mod, s₁) ∧
      resolveFromModule modname classname mod = .ok r := by
  unfold get_template_field at h
  split at h
  next e hu => simp at h
  next modname classname hu =>
    split at h
    next e s' hi => simp at h
    next mod s' hi =>
      obtain ⟨hres, hs⟩ := Prod.mk.injEq .. ▸ h
      exact ⟨modname, classname, mod, hu, by rw [hi, hs], hres⟩

theorem get_template_field_idem {env : BuildEnv} {s s₁ : ImportState} {fqn : String}
    {r : Except PyError PySeq} (h : get_template_field env s fqn = (r, s₁)) :
    get_template_field env s₁ fqn = (r, s₁) := by
  unfold get_template_field at h ⊢
  split at h
  next e hu =>
    cases h
    rfl
  next modname classname hu =>
    split at h
    next e s' hi =>
      cases h
      rw [importModule_idem hi]
    next mod s' hi =>
      cases h
      rw [importModule_idem hi]

theorem get_template_field_defs (env : BuildEnv) (s : ImportState) (fqn : String) :
    (get_template_field env s fqn).snd.defs = s.defs := by
  unfold get_template_field
  split
  next => rfl
  next modname classname hu =>
    split
    next e s' hi =>
      have := importModule_defs env.config.autodoc_mock_imports s modname
      rw [hi] at this
      exact this
    next mod s' hi =>
      have := importModule_defs env.config.autodoc_mock_imports s modname
      rw [hi] at this
      exact this

/-! Claim theorems. -/

/-- C1: For every FQN that resolves (under the given application and
interpreter state) to a class whose `template_fields` sequence has n
elements, `template_field_role` returns exactly one result node — an inline
container — whose children are the n literal-text spans in the original
field order with exactly n−1 plain `", "` text nodes interspersed between
consecutive spans (none before the first, none after the last), and no
error messages. -/
theorem C1_role_renders_fields (app : App) (s s₁ : ImportState)
    (typ rawtext text : String) (lineno : Nat) (tf : PySeq)
    (h : get_template_field app.env s (unescape text) = (.ok tf, s₁)) :
    template_field_role app s typ rawtext text lineno =
      (.ok ([Node.inline "" [("rawtext", rawtext)] (renderFields tf.elems)], []), s₁) ∧
    renderFields tf.elems = sepInterleaved tf.elems ∧
    literalCount (renderFields tf.elems) = tf.elems.length ∧
    sepCount (renderFields tf.elems) = tf.elems.length - 1 ∧
    spanSources (renderFields tf.elems) = tf.elems ∧
    tf.elems ≠ [] := by
  refine ⟨?_, renderFields_eq_sepInterleaved _, literalCount_renderFields _,
    sepCount_renderFields _, spanSources_renderFields _, ?_⟩
  · simp [template_field_role, h, roleOutcome]
  · obtain ⟨mn, cn, mod, hu, hi, hres⟩ := get_template_field_ok h
    obtain ⟨clazz, tf0, hg, htr, htf, hne, hr⟩ := resolveFromModule_ok hres
    rw [hr]
    simpa [pyList] using hne

/-- Witness for C1 at `pkg.mod.Foo` declaring `template_fields =
("a", "b", "c")`: three spans, two separators, in order. -/
theorem C1_role_renders_fields_witness :
    get_template_field appNoMock.env stateABC (unescape "pkg.mod.Foo") =
      (.ok { kind := SeqKind.list, elems := ["a", "b", "c"] }, stateABCLoaded) ∧
    template_field_role appNoMock stateABC "template-fields" "raw" "pkg.mod.Foo" 7 =
      (.ok ([Node.inline "" [("rawtext", "raw")] (renderFields ["a", "b", "c"])], []),
        stateABCLoaded) ∧
    literalCount (renderFields ["a", "b", "c"]) = 3 ∧
    sepCount (renderFields ["a", "b", "c"]) = 2 ∧
    spanSources (renderFields ["a", "b", "c"]) = ["a", "b", "c"] :=
  have h := C1_role_renders_fields appNoMock stateABC stateABCLoaded "template-fields" "raw"
    "pkg.mod.Foo" 7 { kind := SeqKind.list, elems := ["a", "b", "c"] } rfl
  ⟨rfl, h.1, h.2.2.1, h.2.2.2.1, h.2.2.2.2.1⟩

/-- C7: Resolving the same FQN twice with unchanged module definitions
yields identical output: a second call of `get_template_field` starting
from the interpreter state left by the first returns the same value and the
same state, and likewise a second call of `template_field_role`. -/
theorem C7_resolution_idempotent (app : App) (s s₁ s₂ : ImportState)
    (typ rawtext fqn : String) (lineno : Nat)
    (r : Except PyError PySeq) (rr : Except PyError (List Node × List SystemMessage))
    (h : get_template_field app.env s fqn = (r, s₁))
    (hr : template_field_role app s typ rawtext fqn lineno = (rr, s₂)) :
    get_template_field app.env s₁ fqn = (r, s₁) ∧
    template_field_role app s₂ typ rawtext fqn lineno = (rr, s₂) := by
  refine ⟨get_template_field_idem h, ?_⟩
  unfold template_field_role at hr ⊢
  rcases hp : get_template_field app.env s (unescape fqn) with ⟨res, st⟩
  rw [hp] at hr
  simp only [Prod.mk.injEq] at hr
  obtain ⟨hrr, hs2⟩ := hr
  subst hs2
  have h2 := get_template_field_idem hp
  rw [h2]
  simp [hrr]

/-- Witness for C7 at `pkg.mod.Foo`: the second resolution and the second
role invocation, run from the state left by the first, return the same
value and state. -/
theorem C7_resolution_idempotent_witness :
    get_template_field appNoMock.env stateABC "pkg.mod.Foo" =
      (.ok { kind := SeqKind.list, elems := ["a", "b", "c"] }, stateABCLoaded) ∧
    template_field_role appNoMock stateABC "t" "raw" "pkg.mod.Foo" 7 =
      (.ok ([Node.inline "" [("rawtext", "raw")] (renderFields ["a", "b", "c"])], []),
        stateABCLoaded) ∧
    (get_template_field appNoMock.env stateABCLoaded "pkg.mod.Foo" =
      (.ok { kind := SeqKind.list, elems := ["a", "b", "c"] }, stateABCLoaded) ∧
     template_field_role appNoMock stateABCLoaded "t" "raw" "pkg.mod.Foo" 7 =
      (.ok ([Node.inline "" [("rawtext", "raw")] (renderFields ["a", "b", "c"])], []),
        stateABCLoaded)) :=
  ⟨rfl, rfl, C7_resolution_idempotent appNoMock stateABC stateABCLoaded stateABCLoaded
    "t" "raw" "pkg.mod.Foo" 7 _ _ rfl rfl⟩

/-- C8: Every FQN containing at least one dot is split on its LAST dot: the
FQN decomposes as `modname ++ "." ++ classname` with a dot-free class
segment, and the source's rsplit-and-unpack yields exactly that module
path and class name. -/
theorem C8_rsplit_last_dot (fqn : String) (h : '.' ∈ fqn.toList) :
    ∃ modname classname : String,
      fqn = modname ++ "." ++ classname ∧
      '.' ∉ classname.toList ∧
      unpack2 (rsplit1 fqn '.') = .ok (modname, classname) := by
  obtain ⟨l, r, hs, he, hn⟩ := splitLast_mem h
  refine ⟨String.mk l, String.mk r, ?_, hn, ?_⟩
  · have hf : fqn = String.mk (l ++ '.' :: r) := by
      cases fqn with
      | mk data => exact congrArg String.mk he
    rw [hf]
    have ha : String.mk l ++ "." ++ String.mk r = String.mk ((l ++ ['.']) ++ r) := rfl
    rw [ha, List.append_assoc]
    rfl
  · have hs' : splitLast '.' fqn.data = some (l, r) := hs
    simp [rsplit1, hs', unpack2]

/-- Witness for C8 at `a.b.C`: the module path is `a.b` and the class name
is `C`. -/
theorem C8_rsplit_last_dot_witness :
    '.' ∈ "a.b.C".toList ∧
    (∃ modname classname : String,
      "a.b.C" = modname ++ "." ++ classname ∧
      '.' ∉ classname.toList ∧
      unpack2 (rsplit1 "a.b.C" '.') = .ok (modname, classname)) ∧
    unpack2 (rsplit1 "a.b.C" '.') = .ok ("a.b", "C") :=
  ⟨by decide, C8_rsplit_last_dot "a.b.C" (by decide), rfl⟩

/-- C5 counterexample: at the dot-free FQN `NoDotsHere` the resolver fails
with ValueError from tuple unpacking — not the extension's RoleException —
and the role does not catch it, so no problematic node and no message are
produced, contrary to the claim. -/
theorem C5_counterexample :
    get_template_field envNoMock stateEmpty "NoDotsHere" =
      (.error (.valueError "not enough values to unpack (expected 2, got 1)"), stateEmpty) ∧
    failsWithRoleException (get_template_field envNoMock stateEmpty "NoDotsHere").fst = false ∧
    template_field_role appNoMock stateEmpty "t" "raw" "NoDotsHere" 9 =
      (.error (.valueError "not enough values to unpack (expected 2, got 1)"), stateEmpty) :=
  ⟨rfl, rfl, rfl⟩

/-- C5 (amended): For every FQN without a dot, `rsplit` yields a single
segment and tuple unpacking raises ValueError — a builtin error, not the
extension's RoleException — which `template_field_role` does not catch:
the exception propagates and no problematic node or message is produced
(the input is not silently misresolved). -/
theorem C5_no_dot_value_error (app : App) (s : ImportState)
    (typ rawtext text : String) (lineno : Nat)
    (h : '.' ∉ (unescape text).toList) :
    get_template_field app.env s (unescape text) =
      (.error (.valueError "not enough values to unpack (expected 2, got 1)"), s) ∧
    template_field_role app s typ rawtext text lineno =
      (.error (.valueError "not enough values to unpack (expected 2, got 1)"), s) := by
  have hn : splitLast '.' (unescape text).data = none := splitLast_of_not_mem h
  have h1 : rsplit1 (unescape text) '.' = [unescape text] := by
    simp [rsplit1, hn]
  have h2 : get_template_field app.env s (unescape text) =
      (.error (.valueError "not enough values to unpack (expected 2, got 1)"), s) := by
    simp [get_template_field, h1, unpack2]
  exact ⟨h2, by simp [template_field_role, h2, roleOutcome]⟩

/-- Witness for the amended C5 at `NoDotsHere`. -/
theorem C5_no_dot_value_error_witness :
    ('.' ∉ (unescape "NoDotsHere").toList) ∧
    (get_template_field appNoMock.env stateEmpty (unescape "NoDotsHere") =
      (.error (.valueError "not enough values to unpack (expected 2, got 1)"), stateEmpty) ∧
     template_field_role appNoMock stateEmpty "t" "raw" "NoDotsHere" 9 =
      (.error (.valueError "not enough values to unpack (expected 2, got 1)"), stateEmpty)) :=
  ⟨by decide,
   C5_no_dot_value_error appNoMock stateEmpty "t" "raw" "NoDotsHere" 9 (by decide)⟩

/-- C2 counterexample: with `torch` mocked and no module `ghostpkg`
importable, resolving `ghostpkg.Mod` raises ImportError — not the
RoleException the claim names — and the role propagates the exception,
yielding no problematic node and no error message. -/
theorem C2_counterexample :
    get_template_field envMockTorch stateEmpty "ghostpkg.Mod" =
      (.error (.importError "ghostpkg"), stateEmpty) ∧
    failsWithRoleException (get_template_field envMockTorch stateEmpty "ghostpkg.Mod").fst =
      false ∧
    template_field_role appMockTorch stateEmpty "t" "raw" "ghostpkg.Mod" 3 =
      (.error (.importError "ghostpkg"), stateEmpty) :=
  ⟨rfl, rfl, rfl⟩

/-- C2 (amended): For every FQN whose module is neither cached, nor matched
by a configured mock name, nor importable, `get_template_field` raises
ImportError — not the extension's RoleException — and `template_field_role`
does not catch it: the exception propagates and no problematic node or
error message is produced. -/
theorem C2_import_error_uncaught (app : App) (s : ImportState)
    (typ rawtext text modname classname : String) (lineno : Nat)
    (hsplit : rsplit1 (unescape text) '.' = [modname, classname])
    (hcache : s.cache.lookup modname = none)
    (hmock : isMocked app.env.config.autodoc_mock_imports modname = false)
    (hdefs : s.defs.lookup modname = none) :
    get_template_field app.env s (unescape text) = (.error (.importError modname), s) ∧
    template_field_role app s typ rawtext text lineno =
      (.error (.importError modname), s) := by
  have hi : importModule app.env.config.autodoc_mock_imports s modname =
      (.error (.importError modname), s) := by
    simp [importModule, hcache, hmock, hdefs]
  have h2 : get_template_field app.env s (unescape text) =
      (.error (.importError modname), s) := by
    simp [get_template_field, hsplit, unpack2, hi]
  exact ⟨h2, by simp [template_field_role, h2, roleOutcome]⟩

/-- Witness for the amended C2 at `ghostpkg.Mod` with mocks `["torch"]`. -/
theorem C2_import_error_uncaught_witness :
    rsplit1 (unescape "ghostpkg.Mod") '.' = ["ghostpkg", "Mod"] ∧
    stateEmpty.cache.lookup "ghostpkg" = none ∧
    isMocked appMockTorch.env.config.autodoc_mock_imports "ghostpkg" = false ∧
    stateEmpty.defs.lookup "ghostpkg" = none ∧
    (get_template_field appMockTorch.env stateEmpty (unescape "ghostpkg.Mod") =
      (.error (.importError "ghostpkg"), stateEmpty) ∧
     template_field_role appMockTorch stateEmpty "t" "raw" "ghostpkg.Mod" 3 =
      (.error (.importError "ghostpkg"), stateEmpty)) :=
  ⟨rfl, rfl, rfl, rfl,
   C2_import_error_uncaught appMockTorch stateEmpty "t" "raw" "ghostpkg.Mod"
     "ghostpkg" "Mod" 3 rfl rfl rfl rfl⟩

/-- C3 counterexample: `pkg.mod.Foo` whose class lacks the
`template_fields` attribute makes `get_template_field` raise
AttributeError, not the RoleException the claim names for this case. -/
theorem C3_counterexample :
    get_template_field envNoMock stateNoTF "pkg.mod.Foo" =
      (.error (.attributeError "Foo" "template_fields"), stateNoTFLoaded) ∧
    failsWithRoleException (get_template_field envNoMock stateNoTF "pkg.mod.Foo").fst =
      false :=
  ⟨rfl, rfl⟩

/-- C3 (amended): when the FQN resolves to a truthy class value, an EMPTY
`template_fields` sequence raises the extension's RoleException, but an
ABSENT `template_fields` attribute raises AttributeError instead (which
`template_field_role` does not catch). -/
theorem C3_missing_or_empty_fields (env : BuildEnv) (s s₁ : ImportState)
    (fqn modname classname : String) (mod : ImportedModule) (clazz : PyClass)
    (hsplit : rsplit1 fqn '.' = [modname, classname])
    (himp : importModule env.config.autodoc_mock_imports s modname = (.ok mod, s₁))
    (hattr : getattrMod mod classname = some clazz)
    (htruthy : clazz.truthy = true) :
    (clazz.templateFields = none →
      get_template_field env s fqn =
        (.error (.attributeError classname "template_fields"), s₁)) ∧
    (∀ tf : PySeq, clazz.templateFields = some tf → tf.elems = [] →
      get_template_field env s fqn =
        (.error (.roleException ("Could not find the template fields for " ++ classname ++
          " class in " ++ modname ++ " module.")), s₁)) := by
  constructor
  · intro hnone
    simp [get_template_field, hsplit, unpack2, himp, resolveFromModule, hattr, htruthy, hnone]
  · intro tf htf hempty
    simp [get_template_field, hsplit, unpack2, himp, resolveFromModule, hattr, htruthy, htf,
      hempty]

/-- Witness for the amended C3 at `pkg.mod.Empty`, whose class declares an
empty `template_fields` list. -/
theorem C3_missing_or_empty_fields_witness :
    rsplit1 "pkg.mod.Empty" '.' = ["pkg.mod", "Empty"] ∧
    importModule envNoMock.config.autodoc_mock_imports stateEmptyTF "pkg.mod" =
      (.ok (ImportedModule.real pkgModModuleEmptyTF), stateEmptyTFLoaded) ∧
    getattrMod (ImportedModule.real pkgModModuleEmptyTF) "Empty" =
      some { truthy := true,
             templateFields := some { kind := SeqKind.list, elems := [] } } ∧
    ((({ truthy := true,
         templateFields := some { kind := SeqKind.list, elems := [] } } : PyClass).templateFields =
          none →
      get_template_field envNoMock stateEmptyTF "pkg.mod.Empty" =
        (.error (.attributeError "Empty" "template_fields"), stateEmptyTFLoaded)) ∧
     (∀ tf : PySeq,
        ({ truthy := true,
           templateFields := some { kind := SeqKind.list, elems := [] } } : PyClass).templateFields =
            some tf →
        tf.elems = [] →
        get_template_field envNoMock stateEmptyTF "pkg.mod.Empty" =
          (.error (.roleException ("Could not find the template fields for " ++ "Empty" ++
            " class in " ++ "pkg.mod" ++ " module.")), stateEmptyTFLoaded))) :=
  ⟨rfl, rfl, rfl,
   C3_missing_or_empty_fields envNoMock stateEmptyTF stateEmptyTFLoaded "pkg.mod.Empty"
     "pkg.mod" "Empty" (ImportedModule.real pkgModModuleEmptyTF)
     { truthy := true, templateFields := some { kind := SeqKind.list, elems := [] } }
     rfl rfl rfl rfl⟩

/-- C4: for `pkg.mod.Missing`, a class name that is not an attribute of the
imported module, `getattr(mod, classname)` raises AttributeError — not the
RoleException of the claim — because the source's own
`Error finding ... class in ... module` RoleException branch can only fire
when the attribute EXISTS with a falsy value, as the third conjunct shows
(evidence that the branch, and hence the claim, states the intent). -/
theorem C4_class_not_found_attribute_error :
    get_template_field envNoMock stateABC "pkg.mod.Missing" =
      (.error (.attributeError "pkg.mod" "Missing"), stateABCLoaded) ∧
    failsWithRoleException
      (get_template_field envNoMock stateABC "pkg.mod.Missing").fst = false ∧
    (get_template_field envNoMock stateFalsy "pkg.mod.Bar").fst =
      .error (.roleException "Error finding Bar class in pkg.mod module.") :=
  ⟨rfl, rfl, rfl⟩

/-- C6 counterexample: for `pkg.mod.Foo` whose class lacks
`template_fields`, the role propagates AttributeError and produces NO error
message at all — in particular none containing
`invalid class name pkg.mod.Foo` — contrary to the claim's universal
message format. -/
theorem C6_counterexample :
    template_field_role appNoMock stateNoTF "t" "raw" "pkg.mod.Foo" 11 =
      (.error (.attributeError "Foo" "template_fields"), stateNoTFLoaded) :=
  rfl

/-- C6 (amended): whenever the resolver raises the extension's
RoleException (class attribute present but falsy, or `template_fields`
present but empty), the role reports exactly one message whose text is
`invalid class name <fqn> \n<details>` (note the space before the newline),
tagged with the exact source line of the role occurrence, alongside exactly
one problematic node; the remaining failures (module not importable, class
missing, `template_fields` attribute missing) raise other exception
classes that the role does not catch, so no message is produced there. -/
theorem C6_error_message_format (app : App) (s s₁ : ImportState)
    (typ rawtext text emsg : String) (lineno : Nat)
    (h : get_template_field app.env s (unescape text) =
      (.error (.roleException emsg), s₁)) :
    ∃ msg : SystemMessage,
      msg.message = "invalid class name " ++ unescape text ++ " \n" ++ emsg ∧
      msg.line = lineno ∧ msg.level = 3 ∧
      template_field_role app s typ rawtext text lineno =
        (.ok ([Node.problematic rawtext rawtext msg], [msg]), s₁) := by
  refine ⟨reporterError ("invalid class name " ++ unescape text ++ " \n" ++ emsg) lineno,
    rfl, rfl, rfl, ?_⟩
  simp [template_field_role, h, roleOutcome, reporterError]

/-- Witness for the amended C6 at `pkg.mod.Empty` (empty
`template_fields`), reported at line 11. -/
theorem C6_error_message_format_witness :
    get_template_field appNoMock.env stateEmptyTF (unescape "pkg.mod.Empty") =
      (.error (.roleException
        "Could not find the template fields for Empty class in pkg.mod module."),
        stateEmptyTFLoaded) ∧
    (∃ msg : SystemMessage,
      msg.message = "invalid class name " ++ unescape "pkg.mod.Empty" ++ " \n" ++
        "Could not find the template fields for Empty class in pkg.mod module." ∧
      msg.line = 11 ∧ msg.level = 3 ∧
      template_field_role appNoMock stateEmptyTF "t" "raw" "pkg.mod.Empty" 11 =
        (.ok ([Node.problematic "raw" "raw" msg], [msg]), stateEmptyTFLoaded)) :=
  ⟨rfl,
   C6_error_message_format appNoMock stateEmptyTF stateEmptyTFLoaded "t" "raw"
     "pkg.mod.Empty"
     "Could not find the template fields for Empty class in pkg.mod module." 11 rfl⟩

/-- C9: `setup(app)` registers the role adapter partially applied to `app`
under the role name `template-fields` in the host registry, and returns a
metadata mapping with exactly the keys `version`, `parallel_read_safe` and
`parallel_write_safe`, with both parallel flags true. -/
theorem C9_setup_registration (app : App) (registry : List (String × RegisteredRole)) :
    (setup app registry).fst.lookup "template-fields" =
      some (RegisteredRole.templateFieldRoleBoundTo app) ∧
    RegisteredRole.run (RegisteredRole.templateFieldRoleBoundTo app) =
      template_field_role app ∧
    (setup app registry).snd.map Prod.fst =
      ["version", "parallel_read_safe", "parallel_write_safe"] ∧
    (setup app registry).snd.lookup "version" = some (MetaVal.str "builtin") ∧
    (setup app registry).snd.lookup "parallel_read_safe" = some (MetaVal.bool true) ∧
    (setup app registry).snd.lookup "parallel_write_safe" = some (MetaVal.bool true) :=
  ⟨rfl, rfl, rfl, rfl, rfl, rfl⟩

/-- C10: On success `get_template_field` returns a FRESH list: the returned
sequence has list kind (even when the class attribute is another sequence
kind, such as the tuple of the witness), holds exactly the attribute's
elements in their original order, and the call leaves the module
definitions — hence the class's stored `template_fields` attribute —
unchanged, so the returned copy can be changed without affecting the
class. -/
theorem C10_returns_fresh_list (env : BuildEnv) (s s₁ : ImportState) (fqn : String)
    (r : PySeq) (h : get_template_field env s fqn = (.ok r, s₁)) :
    r.kind = SeqKind.list ∧
    (∃ modname classname mod clazz tf,
      unpack2 (rsplit1 fqn '.') = .ok (modname, classname) ∧
      importModule env.config.autodoc_mock_imports s modname = (.ok mod, s₁) ∧
      getattrMod mod classname = some clazz ∧
      clazz.templateFields = some tf ∧
      r = pyList tf ∧ r.elems = tf.elems) ∧
    s₁.defs = s.defs := by
  obtain ⟨modname, classname, mod, hu, hi, hres⟩ := get_template_field_ok h
  obtain ⟨clazz, tf, hg, htr, htf, hne, hr⟩ := resolveFromModule_ok hres
  refine ⟨by rw [hr]; rfl,
    ⟨modname, classname, mod, clazz, tf, hu, hi, hg, htf, hr, by rw [hr]; rfl⟩, ?_⟩
  have hd := get_template_field_defs env s fqn
  rw [h] at hd
  exact hd

/-- Witness for C10 at `pkg.mod.Foo`, whose `template_fields` attribute is
a TUPLE `("a", "b", "c")`: the result is a list with the same elements and
the module definitions are unchanged. -/
theorem C10_returns_fresh_list_witness :
    get_template_field envNoMock stateABC "pkg.mod.Foo" =
      (.ok { kind := SeqKind.list, elems := ["a", "b", "c"] }, stateABCLoaded) ∧
    (({ kind := SeqKind.list, elems := ["a", "b", "c"] } : PySeq).kind = SeqKind.list ∧
     (∃ modname classname mod clazz tf,
        unpack2 (rsplit1 "pkg.mod.Foo" '.') = .ok (modname, classname) ∧
        importModule envNoMock.config.autodoc_mock_imports stateABC modname =
          (.ok mod, stateABCLoaded) ∧
        getattrMod mod classname = some clazz ∧
        clazz.templateFields = some tf ∧
        ({ kind := SeqKind.list, elems := ["a", "b", "c"] } : PySeq) = pyList tf ∧
        ({ kind := SeqKind.list, elems := ["a", "b", "c"] } : PySeq).elems = tf.elems) ∧
     stateABCLoaded.defs = stateABC.defs) :=
  ⟨rfl,
   C10_returns_fresh_list envNoMock stateABC stateABCLoaded "pkg.mod.Foo"
     { kind := SeqKind.list, elems := ["a", "b", "c"] } rfl⟩

end Docroles
